import Mathlib

/-!
Shallow embedding of the delivery-lifecycle core of the `dago` food/parcel
delivery service (FastAPI + SQLAlchemy), together with theorems settling the
spec claims about it.

Conventions of the embedding:
* UUID values are modelled as `Nat` (they are opaque identifiers).
* Python `Decimal` money arithmetic is exact; it is modelled as `ℚ`.
  The `Decimal` literals appearing in the source ("0.08", "5.0", "2.0",
  "1.0", "1.5") are exact rationals.
* Timestamps (`datetime.utcnow()`) are modelled as an abstract `Nat` supplied
  by the caller.
* `db.query(...).first()` lookups are modelled by passing the fetched row (or
  the `Option` of it where the handler guards against `None`) to the embedded
  handler; raising `HTTPException(code, detail)` is modelled as returning
  `Except.error` carrying the same code and detail string.
* The haversine helper `calculate_distance` works on binary floats through
  `math.sin`/`math.cos`/`math.atan2`; it is kept abstract (a function
  parameter), since no claim constrains its numeric value.
-/

namespace Dago

/-- Status set of a food order, from `OrderStatus` in `app/models/food_order.py`. -/
inductive OrderStatus
  | pending
  | confirmed
  | preparing
  | ready
  | picked_up
  | delivered
  | cancelled
  deriving DecidableEq, Repr

/-- Lowercase wire token of an order status (the `.value` of the Python enum). -/
def OrderStatus.value : OrderStatus → String
  | .pending => "pending"
  | .confirmed => "confirmed"
  | .preparing => "preparing"
  | .ready => "ready"
  | .picked_up => "picked_up"
  | .delivered => "delivered"
  | .cancelled => "cancelled"

/-- Status set of a parcel delivery, from `ParcelStatus` in `app/models/parcel.py`. -/
inductive ParcelStatus
  | pending
  | assigned
  | picked_up
  | in_transit
  | delivered
  | cancelled
  deriving DecidableEq, Repr

/-- Lowercase wire token of a parcel status (the `.value` of the Python enum). -/
def ParcelStatus.value : ParcelStatus → String
  | .pending => "pending"
  | .assigned => "assigned"
  | .picked_up => "picked_up"
  | .in_transit => "in_transit"
  | .delivered => "delivered"
  | .cancelled => "cancelled"

/-- Size classification of a parcel, from `ParcelSize` in `app/models/parcel.py`. -/
inductive ParcelSize
  | small
  | medium
  | large
  deriving DecidableEq, Repr

/-- Review target kind, from `TargetType` in `app/models/review.py`. -/
inductive TargetType
  | restaurant
  | driver
  deriving DecidableEq, Repr

/-- An error surfaced through FastAPI `HTTPException(status_code, detail)`. -/
structure HTTPError where
  status_code : Nat
  detail : String
  deriving DecidableEq, Repr

/-- Row of the `restaurants` table (fields used by the embedded handlers). -/
structure Restaurant where
  id : Nat
  is_active : Bool
  delivery_fee : ℚ
  rating_average : ℚ
  deriving DecidableEq, Repr

/-- Row of the `menu_items` table (fields used by the embedded handlers). -/
structure MenuItem where
  id : Nat
  restaurant_id : Nat
  price : ℚ
  is_available : Bool
  deriving DecidableEq, Repr

/-- Row of the `food_orders` table (fields used by the embedded handlers). -/
structure FoodOrder where
  id : Nat
  customer_id : Nat
  restaurant_id : Nat
  driver_id : Option Nat
  status : OrderStatus
  delivery_address : String
  subtotal : ℚ
  delivery_fee : ℚ
  tax : ℚ
  total_amount : ℚ
  delivered_at : Option Nat
  deriving DecidableEq, Repr

/-- Row of the `order_items` table, as assembled by `create_food_order`. -/
structure OrderItemRow where
  menu_item_id : Nat
  quantity : Int
  unit_price : ℚ
  total_price : ℚ
  deriving DecidableEq, Repr

/-- Row of the `parcel_deliveries` table (fields used by the embedded handlers). -/
structure ParcelDelivery where
  id : Nat
  sender_id : Nat
  driver_id : Option Nat
  recipient_name : String
  pickup_address : String
  pickup_latitude : Option ℚ
  pickup_longitude : Option ℚ
  delivery_address : String
  delivery_latitude : Option ℚ
  delivery_longitude : Option ℚ
  parcel_size : ParcelSize
  status : ParcelStatus
  delivery_fee : ℚ
  estimated_distance_km : ℚ
  picked_up_at : Option Nat
  delivered_at : Option Nat
  deriving DecidableEq, Repr

/-- Row of the `reviews` table (fields used by the embedded handlers). -/
structure Review where
  reviewer_id : Nat
  target_type : TargetType
  target_id : Nat
  order_id : Option Nat
  rating : Int
  deriving DecidableEq, Repr

/-- Driver profile row (fields used by the embedded handlers). -/
structure DriverProfile where
  user_id : Nat
  total_deliveries : Nat
  rating_average : ℚ
  deriving DecidableEq, Repr

/-- Body schema `OrderItemCreate` from `app/schemas/food_order.py`; `quantity`
is a plain Pydantic `int` with no lower bound. -/
structure OrderItemCreate where
  menu_item_id : Nat
  quantity : Int
  deriving DecidableEq, Repr

/-- Body schema `FoodOrderCreate` from `app/schemas/food_order.py`. -/
structure FoodOrderCreate where
  restaurant_id : Nat
  delivery_address : String
  items : List OrderItemCreate
  deriving DecidableEq, Repr

/-- Body schema `ParcelDeliveryCreate` from `app/schemas/parcel.py`; optional
coordinates are `Option ℚ`. -/
structure ParcelDeliveryCreate where
  recipient_name : String
  pickup_address : String
  pickup_latitude : Option ℚ
  pickup_longitude : Option ℚ
  delivery_address : String
  delivery_latitude : Option ℚ
  delivery_longitude : Option ℚ
  parcel_size : ParcelSize
  deriving DecidableEq, Repr

/-- Body schema `ReviewCreate` from `app/schemas/review.py` (`rating` is
validated to 1..5 by Pydantic). -/
structure ReviewCreate where
  rating : Int
  deriving DecidableEq, Repr

/-- Python truthiness of an `Optional[float]` coordinate as tested by
`all([...])` in `create_parcel_delivery`: `None` and `0.0` are falsy. -/
def truthy : Option ℚ → Bool
  | none => false
  | some v => v != 0

/-- Embeds `calculate_delivery_fee` from `app/routers/parcels.py`: base fee
5.0, per-km rate 2.0, multiplied by the size multiplier. -/
def size_multiplier : ParcelSize → ℚ
  | .small => 1
  | .medium => 3/2
  | .large => 2

/-- Embeds `calculate_delivery_fee(distance_km, parcel_size)` from
`app/routers/parcels.py`. -/
def calculate_delivery_fee (distance_km : ℚ) (parcel_size : ParcelSize) : ℚ :=
  let base_fee : ℚ := 5
  let distance_fee : ℚ := distance_km * 2
  (base_fee + distance_fee) * size_multiplier parcel_size

/-- Embeds `accept_food_order` from `app/routers/drivers.py` (the claim
operation for food orders), applied to the fetched order row. -/
def accept_food_order (current_user : Nat) (order : FoodOrder) :
    Except HTTPError FoodOrder :=
  if (order.driver_id).isSome then
    .error ⟨400, "Order already assigned to a driver"⟩
  else
    let order := { order with driver_id := some current_user }
    if order.status = OrderStatus.confirmed then
      .ok { order with status := OrderStatus.preparing }
    else
      .ok order

/-- Embeds `accept_parcel` from `app/routers/drivers.py` (the claim operation
for parcels), applied to the fetched parcel row. -/
def accept_parcel (current_user : Nat) (parcel : ParcelDelivery) :
    Except HTTPError ParcelDelivery :=
  if (parcel.driver_id).isSome then
    .error ⟨400, "Parcel already assigned to a driver"⟩
  else
    .ok { parcel with driver_id := some current_user,
                      status := ParcelStatus.assigned }

/-- Embeds `cancel_order` from `app/routers/food_orders.py`, applied to the
fetched order row. -/
def cancel_order (current_user : Nat) (order : FoodOrder) :
    Except HTTPError FoodOrder :=
  if order.customer_id ≠ current_user then
    .error ⟨403, "Not authorized to cancel this order"⟩
  else if order.status ≠ OrderStatus.pending ∧ order.status ≠ OrderStatus.confirmed then
    .error ⟨400, "Cannot cancel order with status: " ++ order.status.value⟩
  else
    .ok { order with status := OrderStatus.cancelled }

/-- Embeds `cancel_parcel` from `app/routers/parcels.py`, applied to the
fetched parcel row. -/
def cancel_parcel (current_user : Nat) (parcel : ParcelDelivery) :
    Except HTTPError ParcelDelivery :=
  if parcel.sender_id ≠ current_user then
    .error ⟨403, "Not authorized to cancel this parcel"⟩
  else if parcel.status ≠ ParcelStatus.pending ∧ parcel.status ≠ ParcelStatus.assigned then
    .error ⟨400, "Cannot cancel parcel with status: " ++ parcel.status.value⟩
  else
    .ok { parcel with status := ParcelStatus.cancelled }

/-- Embeds `update_order_status` from `app/routers/drivers.py`: the assigned
driver sets any status; reaching `delivered` stamps the timestamp and bumps
the profile counter whenever the profile row is found. -/
def update_order_status (current_user : Nat) (new_status : OrderStatus)
    (now : Nat) (order : FoodOrder) (driver_profile : Option DriverProfile) :
    Except HTTPError (FoodOrder × Option DriverProfile) :=
  if order.driver_id ≠ some current_user then
    .error ⟨403, "Not authorized to update this order"⟩
  else
    let order := { order with status := new_status }
    if new_status = OrderStatus.delivered then
      let order := { order with delivered_at := some now }
      let driver_profile := driver_profile.map fun p =>
        { p with total_deliveries := p.total_deliveries + 1 }
      .ok (order, driver_profile)
    else
      .ok (order, driver_profile)

/-- Embeds `update_parcel_status` from `app/routers/drivers.py`. -/
def update_parcel_status (current_user : Nat) (new_status : ParcelStatus)
    (now : Nat) (parcel : ParcelDelivery) (driver_profile : Option DriverProfile) :
    Except HTTPError (ParcelDelivery × Option DriverProfile) :=
  if parcel.driver_id ≠ some current_user then
    .error ⟨403, "Not authorized to update this parcel"⟩
  else
    let parcel := { parcel with status := new_status }
    if new_status = ParcelStatus.picked_up then
      .ok ({ parcel with picked_up_at := some now }, driver_profile)
    else if new_status = ParcelStatus.delivered then
      let parcel := { parcel with delivered_at := some now }
      let driver_profile := driver_profile.map fun p =>
        { p with total_deliveries := p.total_deliveries + 1 }
      .ok (parcel, driver_profile)
    else
      .ok (parcel, driver_profile)

/-- Embeds the item loop of `create_food_order` in
`app/routers/food_orders.py`: each requested item is looked up in the menu
catalog; a missing or unavailable item aborts with the 400 error raised in the
source; otherwise the line total is `price * quantity` and the running
subtotal accumulates.  The loop checks nothing else: neither the item's
restaurant nor the sign of the quantity. -/
def price_items (menu : List MenuItem) :
    List OrderItemCreate → Except HTTPError (ℚ × List OrderItemRow)
  | [] => .ok (0, [])
  | item :: rest =>
    match menu.find? (fun m => m.id == item.menu_item_id) with
    | none =>
      .error ⟨400, "Menu item " ++ toString item.menu_item_id ++ " not available"⟩
    | some menu_item =>
      if !menu_item.is_available then
        .error ⟨400, "Menu item " ++ toString item.menu_item_id ++ " not available"⟩
      else
        let item_total := menu_item.price * (item.quantity : ℚ)
        match price_items menu rest with
        | .error e => .error e
        | .ok (subtotal, rows) =>
          .ok (item_total + subtotal,
               ⟨item.menu_item_id, item.quantity, menu_item.price, item_total⟩ :: rows)

/-- Embeds `create_food_order` from `app/routers/food_orders.py`, applied to
the fetched restaurant row (`Option` because the handler guards the lookup)
and the menu catalog; `new_id` stands for the generated UUID.  The tax line is
`subtotal * Decimal("0.08")` with no rounding, and the total is
`subtotal + delivery_fee + tax`. -/
def create_food_order (menu : List MenuItem) (restaurant : Option Restaurant)
    (order_data : FoodOrderCreate) (current_user : Nat) (new_id : Nat) :
    Except HTTPError (FoodOrder × List OrderItemRow) :=
  match restaurant with
  | none => .error ⟨404, "Restaurant not found or inactive"⟩
  | some restaurant =>
    if !restaurant.is_active then
      .error ⟨404, "Restaurant not found or inactive"⟩
    else
      match price_items menu order_data.items with
      | .error e => .error e
      | .ok (subtotal, rows) =>
        let delivery_fee := restaurant.delivery_fee
        let tax := subtotal * (8/100 : ℚ)
        let total_amount := subtotal + delivery_fee + tax
        .ok ({ id := new_id,
               customer_id := current_user,
               restaurant_id := order_data.restaurant_id,
               driver_id := none,
               status := OrderStatus.pending,
               delivery_address := order_data.delivery_address,
               subtotal := subtotal,
               delivery_fee := delivery_fee,
               tax := tax,
               total_amount := total_amount,
               delivered_at := none }, rows)

/-- Embeds `create_parcel_delivery` from `app/routers/parcels.py`.  The
haversine helper is abstracted as `calculate_distance`; the branch condition
is Python truthiness of the four optional coordinates (`all([...])`), so a
`None` or `0.0` coordinate selects the fixed default distance of 5.0 km. -/
def create_parcel_delivery (calculate_distance : ℚ → ℚ → ℚ → ℚ → ℚ)
    (parcel_data : ParcelDeliveryCreate) (current_user : Nat) (new_id : Nat) :
    ParcelDelivery :=
  let distance_km : ℚ :=
    if truthy parcel_data.pickup_latitude && truthy parcel_data.pickup_longitude &&
       truthy parcel_data.delivery_latitude && truthy parcel_data.delivery_longitude then
      calculate_distance ((parcel_data.pickup_latitude).getD 0)
        ((parcel_data.pickup_longitude).getD 0)
        ((parcel_data.delivery_latitude).getD 0)
        ((parcel_data.delivery_longitude).getD 0)
    else
      5
  let delivery_fee := calculate_delivery_fee distance_km parcel_data.parcel_size
  { id := new_id,
    sender_id := current_user,
    driver_id := none,
    recipient_name := parcel_data.recipient_name,
    pickup_address := parcel_data.pickup_address,
    pickup_latitude := parcel_data.pickup_latitude,
    pickup_longitude := parcel_data.pickup_longitude,
    delivery_address := parcel_data.delivery_address,
    delivery_latitude := parcel_data.delivery_latitude,
    delivery_longitude := parcel_data.delivery_longitude,
    parcel_size := parcel_data.parcel_size,
    status := ParcelStatus.pending,
    delivery_fee := delivery_fee,
    estimated_distance_km := distance_km,
    picked_up_at := none,
    delivered_at := none }

/-- Recomputation of a target's average rating as written in both review
handlers: `sum(r.rating for r in reviews) / len(reviews)` over all reviews for
the `(target_type, target_id)` pair, with no rounding. -/
def recompute_average (reviews : List Review) (tt : TargetType) (target_id : Nat) : ℚ :=
  let target_reviews := reviews.filter fun r =>
    decide (r.target_type = tt ∧ r.target_id = target_id)
  ((target_reviews.map fun r => (r.rating : ℚ)).sum) / (target_reviews.length : ℚ)

/-- Duplicate-review lookup shared by both review handlers: an existing review
with the same job id, the same reviewer and the same target type. -/
def existing_review (reviews : List Review) (order_id : Nat) (reviewer_id : Nat)
    (tt : TargetType) : Bool :=
  reviews.any fun r =>
    decide (r.order_id = some order_id ∧ r.reviewer_id = reviewer_id ∧ r.target_type = tt)

/-- Embeds `review_restaurant` from `app/routers/food_orders.py`, applied to
the fetched order row, the current review table and the restaurant row (the
source fetches it unguarded after creating the review).  Returns the created
review, the extended review table and the restaurant with the recomputed
(unrounded) average. -/
def review_restaurant (reviews : List Review) (order : FoodOrder)
    (restaurant : Restaurant) (review_data : ReviewCreate) (current_user : Nat) :
    Except HTTPError (Review × List Review × Restaurant) :=
  if order.customer_id ≠ current_user then
    .error ⟨403, "Not authorized to review this order"⟩
  else if order.status ≠ OrderStatus.delivered then
    .error ⟨400, "Can only review delivered orders"⟩
  else if existing_review reviews order.id current_user TargetType.restaurant then
    .error ⟨400, "Order already reviewed"⟩
  else
    let review : Review :=
      ⟨current_user, TargetType.restaurant, order.restaurant_id, some order.id,
       review_data.rating⟩
    let reviews := reviews ++ [review]
    let avg_rating := recompute_average reviews TargetType.restaurant order.restaurant_id
    .ok (review, reviews, { restaurant with rating_average := avg_rating })

/-- Embeds `review_driver` from `app/routers/parcels.py`, applied to the
fetched parcel row, the current review table and the (guarded) driver profile
lookup.  The driver-assigned test `if not parcel.driver_id` is `Option.isNone`
here, since a Python `UUID` object is always truthy. -/
def review_driver (reviews : List Review) (parcel : ParcelDelivery)
    (driver_profile : Option DriverProfile) (review_data : ReviewCreate)
    (current_user : Nat) :
    Except HTTPError (Review × List Review × Option DriverProfile) :=
  if parcel.sender_id ≠ current_user then
    .error ⟨403, "Not authorized to review this delivery"⟩
  else if parcel.status ≠ ParcelStatus.delivered then
    .error ⟨400, "Can only review delivered parcels"⟩
  else if (parcel.driver_id).isNone then
    .error ⟨400, "No driver assigned to this delivery"⟩
  else if existing_review reviews parcel.id current_user TargetType.driver then
    .error ⟨400, "Delivery already reviewed"⟩
  else
    let driver := (parcel.driver_id).getD 0
    let review : Review :=
      ⟨current_user, TargetType.driver, driver, some parcel.id, review_data.rating⟩
    let reviews := reviews ++ [review]
    let avg_rating := recompute_average reviews TargetType.driver driver
    let driver_profile := driver_profile.map fun p =>
      { p with rating_average := avg_rating }
    .ok (review, reviews, driver_profile)

/-- Rounding to `n` decimal digits as the spec's `round(x, n)` (round half to
even is immaterial at the witnesses used below); used only to compare the
source's arithmetic with the spec's claimed rounding. -/
def spec_round_to (digits : Nat) (q : ℚ) : ℚ :=
  ((round (q * (10 ^ digits : ℚ)) : ℤ) : ℚ) / (10 ^ digits : ℚ)

/-! ## Theorems about the embedded handlers -/

/-- C8 (counterexample): the source never clamps the distance to be
non-negative — at distance −1 km the computed fee is 3.00, not the 5.00 that
the claimed clamping `max d 0` would give. -/
theorem fee_ignores_negative_distance :
    calculate_delivery_fee (-1) ParcelSize.small = 3 ∧
    (5 + max (-1 : ℚ) 0 * 2) * size_multiplier ParcelSize.small = 5 ∧
    calculate_delivery_fee (-1) ParcelSize.small ≠
      (5 + max (-1 : ℚ) 0 * 2) * size_multiplier ParcelSize.small := by
  refine ⟨by norm_num [calculate_delivery_fee, size_multiplier], ?_, ?_⟩ <;>
    norm_num [calculate_delivery_fee, size_multiplier]

/-- C8 (amended): for every distance d — negative ones included, since no
clamping is performed — and every size s, the parcel fee equals
(5.00 + d × 2.00) × m(s) with m(small)=1.0, m(medium)=1.5, m(large)=2.0, and
no error conditions; in particular at distance 10 km and size large the fee is
50.00. -/
theorem parcel_fee_formula (d : ℚ) (s : ParcelSize) :
    calculate_delivery_fee d s = (5 + d * 2) * size_multiplier s ∧
    calculate_delivery_fee 10 ParcelSize.large = 50 := by
  refine ⟨rfl, ?_⟩
  norm_num [calculate_delivery_fee, size_multiplier]

/-- C3 (counterexample): with one available menu item priced 10.99 and
quantity 1, the created order's tax is 10.99 × 0.08 = 0.8792, which is not
round(subtotal × 0.08, 2) = 0.88: the source performs no rounding to 2
fractional digits. -/
theorem tax_rounding_counterexample :
    create_food_order [⟨1, 1, 10.99, true⟩] (some ⟨1, true, 1, 0⟩)
        ⟨1, "1 Main St", [⟨1, 1⟩]⟩ 2 3 =
      .ok (⟨3, 2, 1, none, OrderStatus.pending, "1 Main St",
            10.99, 1, 0.8792, 12.8692, none⟩, [⟨1, 1, 10.99, 10.99⟩]) ∧
    (0.8792 : ℚ) ≠ spec_round_to 2 (10.99 * (8/100 : ℚ)) := by
  constructor
  · simp only [create_food_order, price_items, List.find?]
    norm_num
  · norm_num [spec_round_to, round_eq]

/-- C3 (amended): every order created from any item set satisfies
tax = subtotal × 0.08 exactly (computed in exact decimal arithmetic with no
rounding to 2 digits) and total = subtotal + restaurantFee + tax. -/
theorem tax_exact_and_total_sum (menu : List MenuItem)
    (restaurant : Option Restaurant) (order_data : FoodOrderCreate)
    (u nid : Nat) (o : FoodOrder) (rows : List OrderItemRow)
    (h : create_food_order menu restaurant order_data u nid = .ok (o, rows)) :
    o.tax = o.subtotal * (8/100 : ℚ) ∧
    o.total_amount = o.subtotal + o.delivery_fee + o.tax := by
  unfold create_food_order at h
  split at h
  · exact absurd h (by simp)
  · split at h
    · exact absurd h (by simp)
    · split at h
      · exact absurd h (by simp)
      · simp only [Except.ok.injEq, Prod.mk.injEq] at h
        obtain ⟨ho, -⟩ := h
        subst ho
        exact ⟨rfl, rfl⟩

/-- C3 (witness): the counterexample order of `tax_rounding_counterexample`
instantiates the amended claim. -/
theorem tax_exact_and_total_sum_witness :
    (⟨3, 2, 1, none, OrderStatus.pending, "1 Main St",
       10.99, 1, 0.8792, 12.8692, none⟩ : FoodOrder).tax =
        (10.99 : ℚ) * (8/100 : ℚ) ∧
    ((10.99 : ℚ) + 1 + 0.8792 : ℚ) = 10.99 + 1 + (10.99 : ℚ) * (8/100 : ℚ) := by
  have h := tax_exact_and_total_sum [⟨1, 1, 10.99, true⟩] (some ⟨1, true, 1, 0⟩)
    ⟨1, "1 Main St", [⟨1, 1⟩]⟩ 2 3
    ⟨3, 2, 1, none, OrderStatus.pending, "1 Main St",
      10.99, 1, 0.8792, 12.8692, none⟩ [⟨1, 1, 10.99, 10.99⟩]
    (by simp only [create_food_order, price_items, List.find?]; norm_num)
  exact ⟨h.1, by norm_num⟩

/-- C1 (counterexample): the accept handlers check only that the driver is
unset, never the status.  A food order in status `pending` (not `confirmed` or
`ready`) is accepted successfully, and so is a parcel in status `cancelled`
(not `pending`). -/
theorem accept_ignores_status_counterexample :
    accept_food_order 9
        ⟨1, 2, 3, none, OrderStatus.pending, "1 Main St", 10, 1, 0.8, 11.8, none⟩ =
      .ok ⟨1, 2, 3, some 9, OrderStatus.pending, "1 Main St", 10, 1, 0.8, 11.8, none⟩ ∧
    OrderStatus.pending ≠ OrderStatus.confirmed ∧
    OrderStatus.pending ≠ OrderStatus.ready ∧
    accept_parcel 9
        ⟨1, 2, none, "Bob", "A St", none, none, "B St", none, none,
         ParcelSize.small, ParcelStatus.cancelled, 15, 5, none, none⟩ =
      .ok ⟨1, 2, some 9, "Bob", "A St", none, none, "B St", none, none,
           ParcelSize.small, ParcelStatus.assigned, 15, 5, none, none⟩ ∧
    ParcelStatus.cancelled ≠ ParcelStatus.pending := by
  refine ⟨rfl, by simp, by simp, rfl, by simp⟩

/-- C1 (amended): the claim operations succeed exactly when the job's driver
is unset, with no precondition on the status; on success the food order's
status becomes `preparing` if it was `confirmed` and is otherwise unchanged,
and the parcel's status becomes `assigned` whatever it was before. -/
theorem accept_succeeds_iff_driver_unset (uid : Nat) (o : FoodOrder)
    (p : ParcelDelivery) :
    ((∃ r, accept_food_order uid o = .ok r) ↔ o.driver_id = none) ∧
    (o.driver_id = none →
      accept_food_order uid o =
        .ok { o with driver_id := some uid,
                     status := if o.status = OrderStatus.confirmed then
                       OrderStatus.preparing else o.status }) ∧
    ((∃ r, accept_parcel uid p = .ok r) ↔ p.driver_id = none) ∧
    (p.driver_id = none →
      accept_parcel uid p =
        .ok { p with driver_id := some uid, status := ParcelStatus.assigned }) := by
  refine ⟨?_, ?_, ?_, ?_⟩
  · cases ho : o.driver_id with
    | none => simp [accept_food_order, ho]; split <;> simp
    | some d => simp [accept_food_order, ho]
  · intro ho
    simp only [accept_food_order, ho, Option.isSome_none, Bool.false_eq_true,
      if_false]
    split <;> simp_all
  · cases hp : p.driver_id with
    | none => simp [accept_parcel, hp]
    | some d => simp [accept_parcel, hp]
  · intro hp
    simp [accept_parcel, hp]

/-- C1 (witness): an unassigned confirmed order is accepted and advances to
`preparing`; an unassigned pending parcel is accepted and becomes
`assigned`. -/
theorem accept_succeeds_iff_driver_unset_witness :
    accept_food_order 9
        ⟨1, 2, 3, none, OrderStatus.confirmed, "1 Main St", 10, 1, 0.8, 11.8, none⟩ =
      .ok { (⟨1, 2, 3, none, OrderStatus.confirmed, "1 Main St",
              10, 1, 0.8, 11.8, none⟩ : FoodOrder) with
            driver_id := some 9,
            status := if OrderStatus.confirmed = OrderStatus.confirmed then
              OrderStatus.preparing else OrderStatus.confirmed } ∧
    accept_parcel 9
        ⟨1, 2, none, "Bob", "A St", none, none, "B St", none, none,
         ParcelSize.small, ParcelStatus.pending, 15, 5, none, none⟩ =
      .ok { (⟨1, 2, none, "Bob", "A St", none, none, "B St", none, none,
              ParcelSize.small, ParcelStatus.pending, 15, 5, none, none⟩ :
              ParcelDelivery) with
            driver_id := some 9, status := ParcelStatus.assigned } := by
  have h := accept_succeeds_iff_driver_unset 9
    ⟨1, 2, 3, none, OrderStatus.confirmed, "1 Main St", 10, 1, 0.8, 11.8, none⟩
    ⟨1, 2, none, "Bob", "A St", none, none, "B St", none, none,
     ParcelSize.small, ParcelStatus.pending, 15, 5, none, none⟩
  exact ⟨h.2.1 rfl, h.2.2.2 rfl⟩

/-- C2: the driver field is set at most once.  Each mutating handler either
leaves `driver_id` unchanged (status updates, cancellation) or sets it from
unset to the caller (the accept handlers); an accept attempt on a job whose
driver is already set fails with the already-assigned error; creation leaves
the driver unset. -/
theorem driver_assigned_at_most_once (uid now u2 nid : Nat) (ns : OrderStatus)
    (nps : ParcelStatus) (o r : FoodOrder) (p q : ParcelDelivery)
    (pr : Option DriverProfile) (menu : List MenuItem)
    (restaurant : Option Restaurant) (order_data : FoodOrderCreate)
    (rows : List OrderItemRow) (cdist : ℚ → ℚ → ℚ → ℚ → ℚ)
    (parcel_data : ParcelDeliveryCreate) :
    (∀ d, o.driver_id = some d →
      accept_food_order uid o = .error ⟨400, "Order already assigned to a driver"⟩) ∧
    (accept_food_order uid o = .ok r → o.driver_id = none ∧ r.driver_id = some uid) ∧
    (∀ res, update_order_status uid ns now o pr = .ok res →
      res.1.driver_id = o.driver_id) ∧
    (cancel_order uid o = .ok r → r.driver_id = o.driver_id) ∧
    (create_food_order menu restaurant order_data u2 nid = .ok (r, rows) →
      r.driver_id = none) ∧
    (∀ d, p.driver_id = some d →
      accept_parcel uid p = .error ⟨400, "Parcel already assigned to a driver"⟩) ∧
    (accept_parcel uid p = .ok q → p.driver_id = none ∧ q.driver_id = some uid) ∧
    (∀ res, update_parcel_status uid nps now p pr = .ok res →
      res.1.driver_id = p.driver_id) ∧
    (cancel_parcel uid p = .ok q → q.driver_id = p.driver_id) ∧
    ((create_parcel_delivery cdist parcel_data u2 nid).driver_id = none) := by
  refine ⟨?_, ?_, ?_, ?_, ?_, ?_, ?_, ?_, ?_, rfl⟩
  · intro d hd
    simp [accept_food_order, hd]
  · intro hr
    unfold accept_food_order at hr
    split at hr
    · exact absurd hr (by simp)
    · refine ⟨Option.not_isSome_iff_eq_none.mp ‹¬(o.driver_id).isSome = true›, ?_⟩
      dsimp only at hr
      split at hr <;> (simp only [Except.ok.injEq] at hr; subst hr; rfl)
  · intro res hres
    unfold update_order_status at hres
    split at hres
    · exact absurd hres (by simp)
    · dsimp only at hres
      split at hres <;> (simp only [Except.ok.injEq] at hres; subst hres; rfl)
  · intro hr
    unfold cancel_order at hr
    split at hr
    · exact absurd hr (by simp)
    · split at hr
      · exact absurd hr (by simp)
      · simp only [Except.ok.injEq] at hr; subst hr; rfl
  · intro hr
    unfold create_food_order at hr
    split at hr
    · exact absurd hr (by simp)
    · split at hr
      · exact absurd hr (by simp)
      · split at hr
        · exact absurd hr (by simp)
        · simp only [Except.ok.injEq, Prod.mk.injEq] at hr
          obtain ⟨ho, -⟩ := hr; subst ho; rfl
  · intro d hd
    simp [accept_parcel, hd]
  · intro hq
    unfold accept_parcel at hq
    split at hq
    · exact absurd hq (by simp)
    · refine ⟨Option.not_isSome_iff_eq_none.mp ‹¬(p.driver_id).isSome = true›, ?_⟩
      simp only [Except.ok.injEq] at hq; subst hq; rfl
  · intro res hres
    unfold update_parcel_status at hres
    split at hres
    · exact absurd hres (by simp)
    · dsimp only at hres
      split at hres
      · simp only [Except.ok.injEq] at hres; subst hres; rfl
      · split at hres <;> (simp only [Except.ok.injEq] at hres; subst hres; rfl)
  · intro hq
    unfold cancel_parcel at hq
    split at hq
    · exact absurd hq (by simp)
    · split at hq
      · exact absurd hq (by simp)
      · simp only [Except.ok.injEq] at hq; subst hq; rfl

/-- C2 (witness): with the driver already set to 5, a second accept attempt
fails with the already-assigned error; a cancellation of this parcel keeps its
driver. -/
theorem driver_assigned_at_most_once_witness :
    accept_food_order 9
        ⟨1, 2, 3, some 5, OrderStatus.preparing, "1 Main St", 10, 1, 0.8, 11.8, none⟩ =
      .error ⟨400, "Order already assigned to a driver"⟩ ∧
    accept_parcel 9
        ⟨1, 2, some 5, "Bob", "A St", none, none, "B St", none, none,
         ParcelSize.small, ParcelStatus.assigned, 15, 5, none, none⟩ =
      .error ⟨400, "Parcel already assigned to a driver"⟩ := by
  have h := driver_assigned_at_most_once 9 0 2 4 OrderStatus.delivered
    ParcelStatus.delivered
    ⟨1, 2, 3, some 5, OrderStatus.preparing, "1 Main St", 10, 1, 0.8, 11.8, none⟩
    ⟨1, 2, 3, some 5, OrderStatus.preparing, "1 Main St", 10, 1, 0.8, 11.8, none⟩
    ⟨1, 2, some 5, "Bob", "A St", none, none, "B St", none, none,
     ParcelSize.small, ParcelStatus.assigned, 15, 5, none, none⟩
    ⟨1, 2, some 5, "Bob", "A St", none, none, "B St", none, none,
     ParcelSize.small, ParcelStatus.assigned, 15, 5, none, none⟩
    none [] none ⟨1, "1 Main St", []⟩ [] (fun _ _ _ _ => 0)
    ⟨"Bob", "A St", none, none, "B St", none, none, ParcelSize.small⟩
  exact ⟨h.1 5 rfl, h.2.2.2.2.2.1 5 rfl⟩

/-- C4 (counterexample): the status-update handler increments the driver's
counter on every call whose target status is `delivered`, with no first-time
guard.  Repeating the same `delivered` update on the already-delivered order
moves the counter from 1 to 2, where the claim requires it to stay at 1. -/
theorem delivered_count_double_increment :
    update_order_status 5 OrderStatus.delivered 100
        ⟨1, 2, 3, some 5, OrderStatus.picked_up, "1 Main St", 10, 1, 0.8, 11.8, none⟩
        (some ⟨5, 0, 0⟩) =
      .ok (⟨1, 2, 3, some 5, OrderStatus.delivered, "1 Main St",
            10, 1, 0.8, 11.8, some 100⟩, some ⟨5, 1, 0⟩) ∧
    update_order_status 5 OrderStatus.delivered 101
        ⟨1, 2, 3, some 5, OrderStatus.delivered, "1 Main St",
          10, 1, 0.8, 11.8, some 100⟩
        (some ⟨5, 1, 0⟩) =
      .ok (⟨1, 2, 3, some 5, OrderStatus.delivered, "1 Main St",
            10, 1, 0.8, 11.8, some 101⟩, some ⟨5, 2, 0⟩) ∧
    (2 : Nat) ≠ 1 := by
  exact ⟨rfl, rfl, by simp⟩

/-- C4 (amended): on every successful driver status update whose target
status is `delivered` — regardless of the job's current status, so also on a
repeated `delivered` call — the assigned driver's counter increases by
exactly 1 when the profile row exists, and it is unchanged for every other
target status. -/
theorem delivered_count_increments_per_call (uid now : Nat) (ns : OrderStatus)
    (nps : ParcelStatus) (o : FoodOrder) (p : ParcelDelivery)
    (prof : DriverProfile) (ro : FoodOrder × Option DriverProfile)
    (rp : ParcelDelivery × Option DriverProfile) :
    (update_order_status uid ns now o (some prof) = .ok ro →
      ro.2 = some { prof with total_deliveries := prof.total_deliveries +
        (if ns = OrderStatus.delivered then 1 else 0) }) ∧
    (update_parcel_status uid nps now p (some prof) = .ok rp →
      rp.2 = some { prof with total_deliveries := prof.total_deliveries +
        (if nps = ParcelStatus.delivered then 1 else 0) }) := by
  constructor
  · intro h
    unfold update_order_status at h
    split at h
    · exact absurd h (by simp)
    · dsimp only at h
      split at h <;> (simp only [Except.ok.injEq] at h; subst h; simp_all)
  · intro h
    unfold update_parcel_status at h
    split at h
    · exact absurd h (by simp)
    · dsimp only at h
      split at h
      · simp only [Except.ok.injEq] at h; subst h
        simp_all [ParcelStatus.picked_up.sizeOf_spec]
      · split at h <;> (simp only [Except.ok.injEq] at h; subst h; simp_all)

/-- C4 (witness): the first `delivered` update on the picked-up order of
`delivered_count_double_increment` takes the counter from 0 to 0 + 1. -/
theorem delivered_count_increments_per_call_witness :
    (some (⟨5, 1, 0⟩ : DriverProfile) : Option DriverProfile) =
      some { (⟨5, 0, 0⟩ : DriverProfile) with total_deliveries :=
        0 + (if OrderStatus.delivered = OrderStatus.delivered then 1 else 0) } := by
  exact (delivered_count_increments_per_call 5 100 OrderStatus.delivered
    ParcelStatus.pending
    ⟨1, 2, 3, some 5, OrderStatus.picked_up, "1 Main St", 10, 1, 0.8, 11.8, none⟩
    ⟨1, 2, some 5, "Bob", "A St", none, none, "B St", none, none,
     ParcelSize.small, ParcelStatus.assigned, 15, 5, none, none⟩
    ⟨5, 0, 0⟩
    (⟨1, 2, 3, some 5, OrderStatus.delivered, "1 Main St",
      10, 1, 0.8, 11.8, some 100⟩, some ⟨5, 1, 0⟩)
    (⟨1, 2, some 5, "Bob", "A St", none, none, "B St", none, none,
      ParcelSize.small, ParcelStatus.assigned, 15, 5, none, none⟩, some ⟨5, 0, 0⟩)).1
    rfl

/-- C7: cancellation succeeds exactly when invoked by the requester on a
job in a cancellable status (`pending`/`confirmed` for orders,
`pending`/`assigned` for parcels); on success the status becomes `cancelled`
and every other field is kept; a requester's attempt from any other status
fails with the 400 invalid-transition error. -/
theorem cancel_requires_owner_and_cancellable_status (uid : Nat)
    (o r : FoodOrder) (p q : ParcelDelivery) :
    ((∃ x, cancel_order uid o = .ok x) ↔
      o.customer_id = uid ∧
        (o.status = OrderStatus.pending ∨ o.status = OrderStatus.confirmed)) ∧
    (cancel_order uid o = .ok r → r = { o with status := OrderStatus.cancelled }) ∧
    (o.customer_id = uid →
      o.status ≠ OrderStatus.pending → o.status ≠ OrderStatus.confirmed →
      cancel_order uid o =
        .error ⟨400, "Cannot cancel order with status: " ++ o.status.value⟩) ∧
    ((∃ x, cancel_parcel uid p = .ok x) ↔
      p.sender_id = uid ∧
        (p.status = ParcelStatus.pending ∨ p.status = ParcelStatus.assigned)) ∧
    (cancel_parcel uid p = .ok q → q = { p with status := ParcelStatus.cancelled }) ∧
    (p.sender_id = uid →
      p.status ≠ ParcelStatus.pending → p.status ≠ ParcelStatus.assigned →
      cancel_parcel uid p =
        .error ⟨400, "Cannot cancel parcel with status: " ++ p.status.value⟩) := by
  refine ⟨?_, ?_, ?_, ?_, ?_, ?_⟩
  · by_cases hc : o.customer_id = uid
    · by_cases hs : o.status ≠ OrderStatus.pending ∧ o.status ≠ OrderStatus.confirmed
      · simp [cancel_order, hc, hs]
      · simp [cancel_order, hc, hs]
        tauto
    · simp [cancel_order, hc]
  · intro h
    unfold cancel_order at h
    split at h
    · exact absurd h (by simp)
    · split at h
      · exact absurd h (by simp)
      · simp only [Except.ok.injEq] at h; exact h.symm
  · intro hc h1 h2
    simp [cancel_order, hc, h1, h2]
  · by_cases hc : p.sender_id = uid
    · by_cases hs : p.status ≠ ParcelStatus.pending ∧ p.status ≠ ParcelStatus.assigned
      · simp [cancel_parcel, hc, hs]
      · simp [cancel_parcel, hc, hs]
        tauto
    · simp [cancel_parcel, hc]
  · intro h
    unfold cancel_parcel at h
    split at h
    · exact absurd h (by simp)
    · split at h
      · exact absurd h (by simp)
      · simp only [Except.ok.injEq] at h; exact h.symm
  · intro hc h1 h2
    simp [cancel_parcel, hc, h1, h2]

/-- C7 (witness): the requester cancels a pending order successfully, and the
requester's attempt on a delivered parcel fails with the invalid-transition
error. -/
theorem cancel_requires_owner_and_cancellable_status_witness :
    cancel_order 2
        ⟨1, 2, 3, none, OrderStatus.pending, "1 Main St", 10, 1, 0.8, 11.8, none⟩ =
      .ok ⟨1, 2, 3, none, OrderStatus.cancelled, "1 Main St",
           10, 1, 0.8, 11.8, none⟩ ∧
    cancel_parcel 2
        ⟨1, 2, some 5, "Bob", "A St", none, none, "B St", none, none,
         ParcelSize.small, ParcelStatus.delivered, 15, 5, none, some 100⟩ =
      .error ⟨400, "Cannot cancel parcel with status: " ++
        ParcelStatus.delivered.value⟩ := by
  have h := cancel_requires_owner_and_cancellable_status 2
    ⟨1, 2, 3, none, OrderStatus.pending, "1 Main St", 10, 1, 0.8, 11.8, none⟩
    ⟨1, 2, 3, none, OrderStatus.cancelled, "1 Main St", 10, 1, 0.8, 11.8, none⟩
    ⟨1, 2, some 5, "Bob", "A St", none, none, "B St", none, none,
     ParcelSize.small, ParcelStatus.delivered, 15, 5, none, some 100⟩
    ⟨1, 2, some 5, "Bob", "A St", none, none, "B St", none, none,
     ParcelSize.small, ParcelStatus.delivered, 15, 5, none, some 100⟩
  exact ⟨rfl, h.2.2.2.2.2 rfl (by simp) (by simp)⟩

/-- Helper: the item loop of `create_food_order` succeeds exactly when every
requested item resolves, via the catalog lookup, to an available menu item;
neither the item's restaurant nor the quantity is consulted. -/
theorem price_items_succeeds_iff (menu : List MenuItem)
    (items : List OrderItemCreate) :
    (∃ res, price_items menu items = .ok res) ↔
      ∀ item ∈ items, ∃ m,
        menu.find? (fun x => x.id == item.menu_item_id) = some m ∧
          m.is_available = true := by
  induction items with
  | nil => simp [price_items]
  | cons item rest ih =>
    cases hf : menu.find? (fun x => x.id == item.menu_item_id) with
    | none => simp [price_items, hf]
    | some m =>
      by_cases hav : m.is_available = true
      · cases hr : price_items menu rest with
        | error e =>
          rw [hr] at ih
          have hlhs : price_items menu (item :: rest) = .error e := by
            simp [price_items, hf, hav, hr]
          rw [hlhs]
          simp only [List.mem_cons, forall_eq_or_imp]
          constructor
          · rintro ⟨res, hres⟩
            simp at hres
          · rintro ⟨-, hrest⟩
            rcases ih.mpr hrest with ⟨res, hres⟩
            simp at hres
        | ok pr =>
          obtain ⟨s2, r2⟩ := pr
          rw [hr] at ih
          have hlhs : price_items menu (item :: rest) =
              .ok (m.price * (item.quantity : ℚ) + s2,
                ⟨item.menu_item_id, item.quantity, m.price,
                 m.price * (item.quantity : ℚ)⟩ :: r2) := by
            simp [price_items, hf, hav, hr]
          rw [hlhs]
          simp only [List.mem_cons, forall_eq_or_imp]
          constructor
          · intro _
            exact ⟨⟨m, hf, hav⟩, ih.mp ⟨(s2, r2), rfl⟩⟩
          · intro _
            exact ⟨_, rfl⟩
      · simp only [Bool.not_eq_true] at hav
        simp [price_items, hf, hav]

/-- Helper: on success, the subtotal returned by the item loop is the sum of
the line totals, and each line total is the unit price times the quantity. -/
theorem price_items_subtotal (menu : List MenuItem)
    (items : List OrderItemCreate) (sub : ℚ) (rows : List OrderItemRow)
    (h : price_items menu items = .ok (sub, rows)) :
    sub = (rows.map OrderItemRow.total_price).sum ∧
    ∀ row ∈ rows, row.total_price = row.unit_price * (row.quantity : ℚ) := by
  induction items generalizing sub rows with
  | nil =>
    simp only [price_items, Except.ok.injEq, Prod.mk.injEq] at h
    obtain ⟨h1, h2⟩ := h
    subst h1; subst h2
    simp
  | cons item rest ih =>
    unfold price_items at h
    split at h
    · exact absurd h (by simp)
    · split at h
      · exact absurd h (by simp)
      · dsimp only at h
        split at h
        · exact absurd h (by simp)
        · rename_i menu_item _ _ heq subtotal2 rows2 hr
          simp only [Except.ok.injEq, Prod.mk.injEq] at h
          obtain ⟨h1, h2⟩ := h
          subst h1; subst h2
          obtain ⟨ih1, ih2⟩ := ih subtotal2 rows2 hr
          refine ⟨by simp [ih1], ?_⟩
          intro row hrow
          rcases List.mem_cons.mp hrow with hhead | htail
          · subst hhead; rfl
          · exact ih2 row htail

/-- C5 (counterexample): an available menu item that belongs to restaurant 2
is ordered from restaurant 1 with quantity 0 — the claim requires the
InvalidItem failure for both reasons, yet the order is created (with a
zero-priced line). -/
theorem foreign_item_and_zero_quantity_accepted :
    create_food_order [⟨7, 2, 3, true⟩] (some ⟨1, true, 1, 0⟩)
        ⟨1, "1 Main St", [⟨7, 0⟩]⟩ 2 3 =
      .ok (⟨3, 2, 1, none, OrderStatus.pending, "1 Main St", 0, 1, 0, 1, none⟩,
           [⟨7, 0, 3, 0⟩]) ∧
    (⟨7, 2, 3, true⟩ : MenuItem).restaurant_id ≠ (⟨1, "1 Main St", [⟨7, 0⟩]⟩ :
      FoodOrderCreate).restaurant_id ∧
    ¬((1 : Int) ≤ (⟨7, 0⟩ : OrderItemCreate).quantity) := by
  refine ⟨?_, by simp, by simp⟩
  simp only [create_food_order, price_items, List.find?]
  norm_num

/-- C5 (amended): given an active restaurant, order creation succeeds exactly
when every referenced menu item is present in the catalog and available — the
item's restaurant and the sign of the quantity are not checked — and on
success the subtotal is the sum of the line totals, each line total being the
unit price snapshot times the requested quantity. -/
theorem create_order_checks_availability_only (menu : List MenuItem)
    (r : Restaurant) (order_data : FoodOrderCreate) (u nid : Nat)
    (hactive : r.is_active = true) :
    ((∃ res, create_food_order menu (some r) order_data u nid = .ok res) ↔
      ∀ item ∈ order_data.items, ∃ m,
        menu.find? (fun x => x.id == item.menu_item_id) = some m ∧
          m.is_available = true) ∧
    (∀ o rows, create_food_order menu (some r) order_data u nid = .ok (o, rows) →
      o.subtotal = (rows.map OrderItemRow.total_price).sum ∧
      ∀ row ∈ rows, row.total_price = row.unit_price * (row.quantity : ℚ)) := by
  constructor
  · rw [← price_items_succeeds_iff menu order_data.items]
    cases hr : price_items menu order_data.items with
    | error e => simp [create_food_order, hactive, hr]
    | ok pr => simp [create_food_order, hactive, hr]
  · intro o rows h
    unfold create_food_order at h
    split at h
    · exact absurd h (by simp)
    · split at h
      · exact absurd h (by simp)
      · split at h
        · exact absurd h (by simp)
        · rename_i subtotal2 rows2 hr
          simp only [Except.ok.injEq, Prod.mk.injEq] at h
          obtain ⟨h1, h2⟩ := h
          subst h1; subst h2
          simpa using price_items_subtotal menu order_data.items subtotal2 rows2 hr

/-- C5 (witness): with a catalog holding one available item, an order
referencing it is created. -/
theorem create_order_checks_availability_only_witness :
    ∃ res, create_food_order [⟨1, 1, 2, true⟩] (some ⟨1, true, 1, 0⟩)
      ⟨1, "1 Main St", [⟨1, 1⟩]⟩ 2 3 = .ok res := by
  refine (create_order_checks_availability_only [⟨1, 1, 2, true⟩] ⟨1, true, 1, 0⟩
    ⟨1, "1 Main St", [⟨1, 1⟩]⟩ 2 3 rfl).1.mpr ?_
  intro item hitem
  simp only [List.mem_singleton] at hitem
  subst hitem
  exact ⟨⟨1, 1, 2, true⟩, rfl, rfl⟩

/-- C6 (counterexample): after a third driver review with ratings 5, 5, 4 the
stored average is the exact mean 14/3 = 4.666…, not round(14/3, 1) = 4.7: the
handlers store `sum/len` with no rounding to one decimal place. -/
theorem rating_average_not_rounded :
    review_driver
        [⟨8, TargetType.driver, 5, some 70, 5⟩, ⟨9, TargetType.driver, 5, some 71, 5⟩]
        ⟨1, 2, some 5, "Bob", "A St", none, none, "B St", none, none,
         ParcelSize.small, ParcelStatus.delivered, 15, 5, none, some 100⟩
        (some ⟨5, 3, 5⟩) ⟨4⟩ 2 =
      .ok (⟨2, TargetType.driver, 5, some 1, 4⟩,
           [⟨8, TargetType.driver, 5, some 70, 5⟩,
            ⟨9, TargetType.driver, 5, some 71, 5⟩,
            ⟨2, TargetType.driver, 5, some 1, 4⟩],
           some ⟨5, 3, 14/3⟩) ∧
    (14/3 : ℚ) ≠ spec_round_to 1 (14/3) := by
  constructor
  · simp only [review_driver, existing_review, recompute_average, List.any_cons,
      List.any_nil, List.filter, List.map, List.sum_cons, List.sum_nil]
    norm_num
  · norm_num [spec_round_to, round_eq]

/-- C6 (amended): after each successful review creation the rated entity's
stored average is the full recomputation `sum(rating)/count` over all reviews
for the `(targetType, targetId)` pair, taken exactly — with no rounding to one
decimal place — and this recomputation is independent of the insertion order
of the review table. -/
theorem rating_average_exact_mean (reviews : List Review) (order : FoodOrder)
    (restaurant : Restaurant) (parcel : ParcelDelivery) (prof : DriverProfile)
    (rd : ReviewCreate) (u : Nat) :
    (∀ rev rs r2, review_restaurant reviews order restaurant rd u = .ok (rev, rs, r2) →
      r2.rating_average = recompute_average rs TargetType.restaurant order.restaurant_id ∧
      r2.id = restaurant.id) ∧
    (∀ rev rs d2, review_driver reviews parcel (some prof) rd u = .ok (rev, rs, d2) →
      d2.map DriverProfile.rating_average =
        some (recompute_average rs TargetType.driver ((parcel.driver_id).getD 0))) ∧
    (∀ (l1 l2 : List Review) (tt : TargetType) (tid : Nat), l1.Perm l2 →
      recompute_average l1 tt tid = recompute_average l2 tt tid) := by
  refine ⟨?_, ?_, ?_⟩
  · intro rev rs r2 h
    unfold review_restaurant at h
    split at h
    · exact absurd h (by simp)
    · split at h
      · exact absurd h (by simp)
      · split at h
        · exact absurd h (by simp)
        · simp only [Except.ok.injEq, Prod.mk.injEq] at h
          obtain ⟨-, hrs, hr2⟩ := h
          subst hrs
          rw [← hr2]
          exact ⟨rfl, rfl⟩
  · intro rev rs d2 h
    unfold review_driver at h
    split at h
    · exact absurd h (by simp)
    · split at h
      · exact absurd h (by simp)
      · split at h
        · exact absurd h (by simp)
        · split at h
          · exact absurd h (by simp)
          · simp only [Except.ok.injEq, Prod.mk.injEq] at h
            obtain ⟨-, hrs, hd2⟩ := h
            subst hrs
            rw [← hd2]
            rfl
  · intro l1 l2 tt tid hperm
    simp only [recompute_average]
    have hf := hperm.filter fun r => decide (r.target_type = tt ∧ r.target_id = tid)
    rw [hf.length_eq, (hf.map fun r => (r.rating : ℚ)).sum_eq]

/-- C6 (witness): a first driver review stores the recomputed average of the
one-element review set, and the recomputation agrees on the two orderings of a
two-review table. -/
theorem rating_average_exact_mean_witness :
    ((some ⟨5, 3, recompute_average ([] ++ [⟨2, TargetType.driver, 5, some 1, 4⟩])
        TargetType.driver 5⟩ : Option DriverProfile)).map DriverProfile.rating_average =
      some (recompute_average ([] ++ [⟨2, TargetType.driver, 5, some 1, 4⟩])
        TargetType.driver 5) ∧
    recompute_average
        [⟨8, TargetType.driver, 5, some 70, 5⟩, ⟨9, TargetType.driver, 5, some 71, 4⟩]
        TargetType.driver 5 =
      recompute_average
        [⟨9, TargetType.driver, 5, some 71, 4⟩, ⟨8, TargetType.driver, 5, some 70, 5⟩]
        TargetType.driver 5 := by
  have h := rating_average_exact_mean []
    ⟨1, 2, 3, none, OrderStatus.delivered, "1 Main St", 10, 1, 0.8, 11.8, none⟩
    ⟨3, true, 1, 0⟩
    ⟨1, 2, some 5, "Bob", "A St", none, none, "B St", none, none,
     ParcelSize.small, ParcelStatus.delivered, 15, 5, none, some 100⟩
    ⟨5, 3, 5⟩ ⟨4⟩ 2
  refine ⟨h.2.1 (⟨2, TargetType.driver, 5, some 1, 4⟩ : Review)
    ([] ++ [(⟨2, TargetType.driver, 5, some 1, 4⟩ : Review)])
    (some (⟨5, 3, recompute_average
      ([] ++ [(⟨2, TargetType.driver, 5, some 1, 4⟩ : Review)])
      TargetType.driver 5⟩ : DriverProfile)) rfl, ?_⟩
  exact h.2.2 _ _ TargetType.driver 5 (List.Perm.swap _ _ _)

/-- C9: a review is created only by the job's requester, only on a delivered
job (and, for parcels, only with a driver assigned), and at most once per
(reviewer, job, target-type) triple; after a successful creation an identical
second attempt fails with the already-reviewed error. -/
theorem review_preconditions_and_uniqueness (reviews : List Review)
    (order : FoodOrder) (restaurant : Restaurant) (parcel : ParcelDelivery)
    (dp : Option DriverProfile) (rd rd2 : ReviewCreate) (u : Nat) :
    ((∃ res, review_restaurant reviews order restaurant rd u = .ok res) ↔
      order.customer_id = u ∧ order.status = OrderStatus.delivered ∧
        existing_review reviews order.id u TargetType.restaurant = false) ∧
    (∀ rev rs r2, review_restaurant reviews order restaurant rd u = .ok (rev, rs, r2) →
      review_restaurant rs order r2 rd2 u = .error ⟨400, "Order already reviewed"⟩) ∧
    ((∃ res, review_driver reviews parcel dp rd u = .ok res) ↔
      parcel.sender_id = u ∧ parcel.status = ParcelStatus.delivered ∧
        (parcel.driver_id).isSome = true ∧
        existing_review reviews parcel.id u TargetType.driver = false) ∧
    (∀ rev rs d2, review_driver reviews parcel dp rd u = .ok (rev, rs, d2) →
      review_driver rs parcel d2 rd2 u = .error ⟨400, "Delivery already reviewed"⟩) := by
  refine ⟨?_, ?_, ?_, ?_⟩
  · constructor
    · rintro ⟨res, hres⟩
      unfold review_restaurant at hres
      split at hres
      · exact absurd hres (by simp)
      · split at hres
        · exact absurd hres (by simp)
        · split at hres
          · exact absurd hres (by simp)
          · rename_i h1 h2 h3
            exact ⟨not_not.mp h1, not_not.mp h2, by simpa using h3⟩
    · rintro ⟨hc, hs, hex⟩
      cases hcall : review_restaurant reviews order restaurant rd u with
      | ok res => exact ⟨res, rfl⟩
      | error e => simp [review_restaurant, hc, hs, hex] at hcall
  · intro rev rs r2 h
    unfold review_restaurant at h
    split at h
    · exact absurd h (by simp)
    · split at h
      · exact absurd h (by simp)
      · split at h
        · exact absurd h (by simp)
        · rename_i h1 h2 h3
          simp only [Except.ok.injEq, Prod.mk.injEq] at h
          obtain ⟨hrev, hrs, -⟩ := h
          subst hrs
          have hex2 : existing_review
              (reviews ++ [⟨u, TargetType.restaurant, order.restaurant_id,
                some order.id, rd.rating⟩]) order.id u TargetType.restaurant = true := by
            simp [existing_review]
          simp [review_restaurant, not_not.mp h1, not_not.mp h2, hex2]
  · constructor
    · rintro ⟨res, hres⟩
      unfold review_driver at hres
      split at hres
      · exact absurd hres (by simp)
      · split at hres
        · exact absurd hres (by simp)
        · split at hres
          · exact absurd hres (by simp)
          · split at hres
            · exact absurd hres (by simp)
            · rename_i h1 h2 h3 h4
              refine ⟨not_not.mp h1, not_not.mp h2, ?_, by simpa using h4⟩
              exact Option.ne_none_iff_isSome.mp
                (by simpa [Option.isNone_iff_eq_none] using h3)
    · rintro ⟨hc, hs, hd, hex⟩
      have hd2 : (parcel.driver_id).isNone = false := by
        rcases Option.isSome_iff_exists.mp hd with ⟨d, hdd⟩
        simp [hdd]
      cases hcall : review_driver reviews parcel dp rd u with
      | ok res => exact ⟨res, rfl⟩
      | error e => simp [review_driver, hc, hs, hd2, hex] at hcall
  · intro rev rs d2 h
    unfold review_driver at h
    split at h
    · exact absurd h (by simp)
    · split at h
      · exact absurd h (by simp)
      · split at h
        · exact absurd h (by simp)
        · split at h
          · exact absurd h (by simp)
          · rename_i h1 h2 h3 h4
            simp only [Except.ok.injEq, Prod.mk.injEq] at h
            obtain ⟨hrev, hrs, -⟩ := h
            subst hrs
            have hex2 : existing_review
                (reviews ++ [⟨u, TargetType.driver, (parcel.driver_id).getD 0,
                  some parcel.id, rd.rating⟩]) parcel.id u TargetType.driver = true := by
              simp [existing_review]
            have h3f : (parcel.driver_id).isNone = false := by
              simp only [Bool.not_eq_true] at h3
              exact h3
            simp [review_driver, not_not.mp h1, not_not.mp h2, h3f, hex2]

/-- C9 (witness): on a delivered order with an empty review table, the
requester's review is accepted. -/
theorem review_preconditions_and_uniqueness_witness :
    ∃ res, review_restaurant []
      ⟨1, 2, 3, none, OrderStatus.delivered, "1 Main St", 10, 1, 0.8, 11.8, none⟩
      ⟨3, true, 1, 0⟩ ⟨5⟩ 2 = .ok res := by
  exact (review_preconditions_and_uniqueness []
    ⟨1, 2, 3, none, OrderStatus.delivered, "1 Main St", 10, 1, 0.8, 11.8, none⟩
    ⟨3, true, 1, 0⟩
    ⟨1, 2, some 5, "Bob", "A St", none, none, "B St", none, none,
     ParcelSize.small, ParcelStatus.delivered, 15, 5, none, some 100⟩
    none ⟨5⟩ ⟨5⟩ 2).1.mpr ⟨rfl, rfl, rfl⟩

/-- C10: whenever at least one of the four coordinates is `None` or exactly
0.0, Python truthiness makes the `all([...])` test fail, so the stored
estimated distance is the fixed default 5.0 km and the fee is computed from
5.0 km — whatever the haversine helper would have returned. -/
theorem zero_coordinate_uses_default_distance (cdist : ℚ → ℚ → ℚ → ℚ → ℚ)
    (parcel_data : ParcelDeliveryCreate) (u nid : Nat)
    (h : parcel_data.pickup_latitude = none ∨ parcel_data.pickup_latitude = some 0 ∨
         parcel_data.pickup_longitude = none ∨ parcel_data.pickup_longitude = some 0 ∨
         parcel_data.delivery_latitude = none ∨ parcel_data.delivery_latitude = some 0 ∨
         parcel_data.delivery_longitude = none ∨ parcel_data.delivery_longitude = some 0) :
    (create_parcel_delivery cdist parcel_data u nid).estimated_distance_km = 5 ∧
    (create_parcel_delivery cdist parcel_data u nid).delivery_fee =
      calculate_delivery_fee 5 parcel_data.parcel_size := by
  have ht : (truthy parcel_data.pickup_latitude &&
      truthy parcel_data.pickup_longitude &&
      truthy parcel_data.delivery_latitude &&
      truthy parcel_data.delivery_longitude) = false := by
    rcases h with h | h | h | h | h | h | h | h <;> simp [truthy, h]
  constructor <;> simp [create_parcel_delivery, ht]

/-- C10 (witness): a pickup latitude of exactly 0.0 (with the three other
coordinates present and nonzero) forces the 5.0 km default and the fee
computed from it, even though the haversine parameter would return 99. -/
theorem zero_coordinate_uses_default_distance_witness :
    (create_parcel_delivery (fun _ _ _ _ => 99)
      ⟨"Bob", "A St", some 0, some 7, "B St", some 8, some 9, ParcelSize.large⟩
      2 3).estimated_distance_km = 5 ∧
    (create_parcel_delivery (fun _ _ _ _ => 99)
      ⟨"Bob", "A St", some 0, some 7, "B St", some 8, some 9, ParcelSize.large⟩
      2 3).delivery_fee = calculate_delivery_fee 5 ParcelSize.large := by
  exact zero_coordinate_uses_default_distance (fun _ _ _ _ => 99)
    ⟨"Bob", "A St", some 0, some 7, "B St", some 8, some 9, ParcelSize.large⟩
    2 3 (Or.inr (Or.inl rfl))

end Dago
